import Mathlib

/-!
# Verification of the ServiceInvoice booking/invoicing server

A shallow embedding of `src/run_server.py`, a zero-dependency vehicle-servicing
invoicing application (SQLite + http.server).  The relational store becomes a
record of lists of rows, the HTTP handlers become pure state-transition
functions, monetary values (Python floats holding currency amounts) are
embedded as exact rationals `ℚ`, and dates are ISO `YYYY-MM-DD` strings,
converted to proleptic-Gregorian ordinals (Python `date.toordinal`) where the
code does calendar arithmetic with `timedelta`.

Form fields that the Python code pushes through `int(...)` / `float(...)`
inside `try/except` are modelled post-parse as `Option` values: `none` stands
for a string those parsers reject, `some v` for a string parsing to `v`.
-/

namespace ServiceInvoice

/-- Python `str.strip()`: drop leading and trailing whitespace
(modelled for ASCII whitespace via `Char.isWhitespace`). -/
def pyStrip (s : String) : String :=
  ⟨((s.data.dropWhile Char.isWhitespace).reverse.dropWhile Char.isWhitespace).reverse⟩

/-- The character for a single decimal digit `d < 10`. -/
def digitChar (d : ℕ) : Char := Char.ofNat (48 + d)

/-- Fuel-driven loop producing the big-endian decimal digit characters of `n`
in front of `acc` (the fuel only bounds the digit count). -/
def decCharsAux : ℕ → ℕ → List Char → List Char
  | 0, _, acc => acc
  | fuel + 1, n, acc =>
      if n = 0 then acc else decCharsAux fuel (n / 10) (digitChar (n % 10) :: acc)

/-- Big-endian decimal digit characters of `n` (empty for `n = 0`). -/
def decChars (n : ℕ) : List Char := decCharsAux n n []

theorem decCharsAux_eq (fuel : ℕ) :
    ∀ n : ℕ, n ≤ fuel → ∀ acc : List Char,
      decCharsAux fuel n acc = ((Nat.digits 10 n).map digitChar).reverse ++ acc := by
  induction fuel with
  | zero =>
      intro n hn acc
      interval_cases n
      simp [decCharsAux]
  | succ fuel ih =>
      intro n hn acc
      by_cases h0 : n = 0
      · subst h0; simp [decCharsAux]
      · have hdiv : n / 10 ≤ fuel := by
          have : n / 10 < n := Nat.div_lt_self (Nat.pos_of_ne_zero h0) (by norm_num)
          omega
        rw [decCharsAux, if_neg h0, ih (n / 10) hdiv,
          Nat.digits_def' (b := 10) (by norm_num) (Nat.pos_of_ne_zero h0)]
        simp

theorem decChars_eq (n : ℕ) :
    decChars n = ((Nat.digits 10 n).map digitChar).reverse := by
  rw [decChars, decCharsAux_eq n n le_rfl, List.append_nil]

/-- Decimal representation of a natural number, as Python `str(n)` for `n ≥ 0`. -/
def decRepr (n : ℕ) : List Char := if n = 0 then ['0'] else decChars n

/-- Python `str(n)` for a non-negative integer. -/
def natStr (n : ℕ) : String := ⟨decRepr n⟩

/-- Python `f"{n:03d}"` for `n ≥ 0`: the decimal representation of `n`,
left-padded with zeros to a minimum width of 3. -/
def pad3 (n : ℕ) : List Char := List.replicate (3 - (decRepr n).length) '0' ++ decRepr n

/-- `pad3` packaged as a string. -/
def seq3 (n : ℕ) : String := ⟨pad3 n⟩

/-- Accumulate the decimal value of a run of digit characters
(the left fold a reader of the digit string performs). -/
def parseDec (l : List Char) : ℕ := l.foldl (fun a c => 10 * a + (c.toNat - 48)) 0

/-- Helper for Python `int(str)`: consume a non-empty digit run in which single
underscores may separate digits (PEP 515), returning its value. -/
def digitsVal (acc : ℕ) : List Char → Option ℕ
  | [] => some acc
  | '_' :: c :: rest =>
      if c.isDigit then digitsVal (10 * acc + (c.toNat - 48)) rest else none
  | ['_'] => none
  | c :: rest =>
      if c.isDigit then digitsVal (10 * acc + (c.toNat - 48)) rest else none

/-- Python `int(s)` for a decimal string: strips surrounding whitespace, allows
one sign character, then a digit run with optional single underscores between
digits.  `none` models `ValueError`. -/
def pyInt? (s : String) : Option ℤ :=
  match (pyStrip s).data with
  | '+' :: c :: rest =>
      if c.isDigit then (digitsVal (c.toNat - 48) rest).map (fun n => (n : ℤ)) else none
  | '-' :: c :: rest =>
      if c.isDigit then (digitsVal (c.toNat - 48) rest).map (fun n => -(n : ℤ)) else none
  | [c] =>
      if c.isDigit then some ((c.toNat - 48 : ℕ) : ℤ) else none
  | c :: rest =>
      if c.isDigit then (digitsVal (c.toNat - 48) rest).map (fun n => (n : ℤ)) else none
  | [] => none

theorem digitChar_toNat {d : ℕ} (h : d < 10) : (digitChar d).toNat = 48 + d := by
  interval_cases d <;> rfl

theorem digitChar_isDigit {d : ℕ} (h : d < 10) : (digitChar d).isDigit = true := by
  interval_cases d <;> rfl

theorem parseDec_rev_digits (ds : List ℕ) (h : ∀ d ∈ ds, d < 10) :
    parseDec ((ds.map digitChar).reverse) = Nat.ofDigits 10 ds := by
  induction ds with
  | nil => simp [parseDec, Nat.ofDigits]
  | cons d t ih =>
      have hd : d < 10 := h d (by simp)
      have ht : ∀ x ∈ t, x < 10 := fun x hx => h x (by simp [hx])
      have ihv := ih ht
      simp only [parseDec, List.map_cons, List.reverse_cons, List.foldl_append,
        List.foldl_cons, List.foldl_nil] at *
      rw [ihv, digitChar_toNat hd, Nat.ofDigits_cons]
      omega

theorem parseDec_decRepr (n : ℕ) : parseDec (decRepr n) = n := by
  by_cases h0 : n = 0
  · subst h0; rfl
  · have hlt : ∀ d ∈ Nat.digits 10 n, d < 10 := fun d hd =>
      Nat.digits_lt_base (by norm_num) hd
    simp only [decRepr, h0, if_false, decChars_eq]
    rw [parseDec_rev_digits _ hlt, Nat.ofDigits_digits]

theorem parseDec_replicate_zero (k : ℕ) (l : List Char) :
    parseDec (List.replicate k '0' ++ l) = parseDec l := by
  induction k with
  | zero => simp
  | succ m ih =>
      simpa [parseDec, List.replicate_succ] using ih

theorem parseDec_pad3 (n : ℕ) : parseDec (pad3 n) = n := by
  rw [pad3, parseDec_replicate_zero, parseDec_decRepr]

theorem pad3_injective : Function.Injective pad3 := by
  intro a b hab
  have := congrArg parseDec hab
  rwa [parseDec_pad3, parseDec_pad3] at this

theorem decRepr_all_digit (n : ℕ) : ∀ c ∈ decRepr n, c.isDigit = true := by
  intro c hc
  by_cases h0 : n = 0
  · subst h0; simp [decRepr] at hc; subst hc; rfl
  · simp only [decRepr, h0, if_false, decChars_eq, List.mem_reverse, List.mem_map] at hc
    obtain ⟨d, hd, rfl⟩ := hc
    exact digitChar_isDigit (Nat.digits_lt_base (by norm_num) hd)

theorem pad3_all_digit (n : ℕ) : ∀ c ∈ pad3 n, c.isDigit = true := by
  intro c hc
  rcases List.mem_append.mp hc with h | h
  · rcases List.eq_of_mem_replicate h with rfl; rfl
  · exact decRepr_all_digit n c h

theorem pad3_length_ge (n : ℕ) : 3 ≤ (pad3 n).length := by
  simp only [pad3, List.length_append, List.length_replicate]
  omega

/-! ## Calendar arithmetic (Python `datetime`) -/

/-- Gregorian leap-year rule, as in Python's `calendar.isleap`. -/
def isLeap (y : ℕ) : Bool := (y % 4 == 0 && y % 100 != 0) || y % 400 == 0

/-- Number of days in month `m` (1-based) of year `y`; `0` for `m` out of range. -/
def daysInMonth (y m : ℕ) : ℕ :=
  [31, if isLeap y then 29 else 28, 31, 30, 31, 30, 31, 31, 30, 31, 30, 31].getD (m - 1) 0

/-- Days in year `y` strictly before month `m` (Python `datetime._days_before_month`). -/
def daysBeforeMonth (y m : ℕ) : ℕ :=
  (List.range (m - 1)).foldl (fun a k => a + daysInMonth y (k + 1)) 0

/-- Python `date(y, m, d).toordinal()`: day number in the proleptic Gregorian
calendar with `date(1, 1, 1).toordinal() = 1`.  Adding a `timedelta` of `k`
days to a date adds `k` to its ordinal. -/
def toOrdinal (y m d : ℕ) : ℕ :=
  365 * (y - 1) + (y - 1) / 4 - (y - 1) / 100 + (y - 1) / 400 + daysBeforeMonth y m + d

/-- All characters in the list are decimal digits. -/
def allDigits (l : List Char) : Bool := l.all (fun c => c.isDigit)

/-- Split a character list at every `'-'` (Python `s.split('-')` for the
one-character separator): always at least one part, one more part per dash. -/
def splitDash : List Char → List (List Char)
  | [] => [[]]
  | c :: rest =>
      match splitDash rest with
      | [] => [[c]]
      | h :: t => if c = '-' then [] :: h :: t else (c :: h) :: t

/-- Python `datetime.strptime(s, "%Y-%m-%d")`, returning the parsed
`(year, month, day)` or `none` on `ValueError`.  Per CPython's `_strptime`
regexes, `%Y` matches exactly four digits while `%m` and `%d` each match one
or two digits (so unpadded forms such as `"2026-1-2"` are accepted); the
`datetime` constructor then requires `year ≥ 1`, `1 ≤ month ≤ 12` and
`1 ≤ day ≤ daysInMonth year month`. -/
def strptimeYmd (s : String) : Option (ℕ × ℕ × ℕ) :=
  match splitDash s.data with
  | [ys, ms, ds] =>
      if ys.length = 4 && allDigits ys
          && (ms.length = 1 || ms.length = 2) && allDigits ms
          && (ds.length = 1 || ds.length = 2) && allDigits ds then
        let y := parseDec ys
        let m := parseDec ms
        let d := parseDec ds
        if 1 ≤ y ∧ 1 ≤ m ∧ m ≤ 12 ∧ 1 ≤ d ∧ d ≤ daysInMonth y m then
          some (y, m, d)
        else none
      else none
  | _ => none

/-! ## The relational store (`database.db`) -/

/-- A row of the `customers` table. -/
structure Customer where
  id : ℕ
  first_name : String
  last_name : String
  phone : String
  email : String
  address : String
deriving DecidableEq

/-- A row of the `vehicles` table.  `mileage` is `NULL` (here `none`) when the
submitted field is not a plain digit string. -/
structure Vehicle where
  id : ℕ
  customer_id : ℕ
  vrm : String
  make : String
  model : String
  mileage : Option ℕ
deriving DecidableEq

/-- A row of the `services` catalog table. -/
structure Service where
  id : ℕ
  name : String
  description : String
  unit_price : ℚ
  vat_rate : ℚ
deriving DecidableEq

/-- A row of the `bookings` table. -/
structure Booking where
  id : ℕ
  customer_id : ℕ
  vehicle_id : ℕ
  booking_date : String
  notes : String
  status : String
deriving DecidableEq

/-- A row of the `booking_items` table copies the catalog price and VAT rate
at booking time. -/
structure BookingItem where
  id : ℕ
  booking_id : ℕ
  service_id : ℕ
  quantity : ℤ
  unit_price : ℚ
  vat_rate : ℚ
deriving DecidableEq

/-- A row of the `misc_items` table (free-form custom parts). -/
structure MiscItem where
  id : ℕ
  booking_id : ℕ
  name : String
  quantity : ℤ
  unit_price : ℚ
  vat_rate : ℚ
deriving DecidableEq

/-- A row of the `invoices` table. -/
structure Invoice where
  id : ℕ
  booking_id : ℕ
  invoice_number : String
  issue_date : String
  total_ex_vat : ℚ
  total_vat : ℚ
  total_inc : ℚ
  status : String
deriving DecidableEq

/-- The whole SQLite database as lists of rows (insertion order). -/
@[ext]
structure Store where
  customers : List Customer
  vehicles : List Vehicle
  services : List Service
  bookings : List Booking
  booking_items : List BookingItem
  misc_items : List MiscItem
  invoices : List Invoice
  settings : List (String × String)
deriving DecidableEq

/-- The rowid SQLite assigns to a fresh `INTEGER PRIMARY KEY AUTOINCREMENT`
insert when no row was ever deleted: one more than the largest existing id
(`1` on an empty table). -/
def freshId (ids : List ℕ) : ℕ := ids.foldr max 0 + 1

/-- `next_invoice_number` in `run_server.py`: `SELECT id FROM invoices ORDER BY
id DESC LIMIT 1` fetches the largest invoice id; `next_id = row[0] + 1 if row
else 1`; result `f"INV{date_str}-{next_id:03d}"` where `date_str` is today
formatted `%Y%m%d`. -/
def nextInvoiceNumber (invoices : List Invoice) (today8 : String) : String :=
  let next_id : ℕ :=
    match invoices with
    | [] => 1
    | _ :: _ => (invoices.map Invoice.id).foldr max 0 + 1
  ("INV") ++ today8 ++ ("-") ++ seq3 next_id

/-- The seeded `services` catalog (ids as SQLite assigns them on first run). -/
def seedServices : List Service :=
  [⟨1, "Full Service", "Comprehensive vehicle servicing including oil and filter change, safety checks and diagnostics", 200, 0.20⟩,
   ⟨2, "Interim Service", "Basic service including oil and filter change and essential safety checks", 120, 0.20⟩,
   ⟨3, "MOT Test", "Annual Ministry of Transport test to ensure roadworthiness", 54.85, 0⟩,
   ⟨4, "Brake Pads Replacement", "Replace front or rear brake pads as needed", 150, 0.20⟩,
   ⟨5, "Diagnostics", "Computer diagnostics and fault code reading", 60, 0.20⟩]

/-- The seeded `settings` table. -/
def seedSettings : List (String × String) :=
  [("company_name", "Motorhouse Beds Ltd"),
   ("address_line1", "87 High Street"),
   ("address_line2", "Clapham"),
   ("address_city", "Bedford"),
   ("address_county", "Bedfordshire"),
   ("address_postcode", "MK41 6AQ"),
   ("phone1", "01234 225570"),
   ("phone2", "07923 829234"),
   ("email", "info@motorhouse-beds.co.uk"),
   ("company_number", "14696224"),
   ("fca_number", "1000208"),
   ("payment_methods", "Bank transfer, Credit/Debit card, Cash"),
   ("bank_details", "Sort Code: 01-02-03, Account No: 12345678"),
   ("payment_terms_days", "14"),
   ("terms_conditions", "Payment is due within 14 days of the invoice date. Late payments may incur interest at 2% per month. All goods remain the property of Motorhouse Beds Ltd until paid for in full.")]

/-- The database as `init_db` leaves it on first run. -/
def initStore : Store :=
  { customers := [], vehicles := [], services := seedServices, bookings := [],
    booking_items := [], misc_items := [], invoices := [], settings := seedSettings }

/-- `get_settings()`: the settings table as a key-value map (keys are unique,
so the first matching row is the value). -/
def getSetting (settings : List (String × String)) (key : String) : Option String :=
  (settings.find? (fun kv => kv.1 == key)).map (fun kv => kv.2)

/-- An HTTP response as the handlers produce it. -/
inductive Response where
  | redirect (code : ℕ) (location : String)
  | error (code : ℕ) (message : String)
deriving DecidableEq

/-! ## `POST /booking/new` (`process_new_booking`) -/

/-- One custom/misc line of the booking form (`custom_name_i`, `custom_qty_i`,
`custom_price_i`, `custom_vat_i`).  The numeric fields are modelled post-parse:
`none` is a string `int()`/`float()` rejects (e.g. the empty string of an
absent `custom_price_i` or `custom_vat_i`), `some v` a string parsing to `v`.
An absent `custom_qty_i` defaults to the string `"0"`, i.e. `some 0`. -/
structure CustomItemForm where
  name : String
  qty : Option ℤ
  price : Option ℚ
  vat : Option ℚ

/-- The decoded `POST /booking/new` form.  `qty i` is the parse result of
`int()` on field `qty_{i}` (an absent field defaults to the string `"0"`,
i.e. `some 0`; `none` is an unparsable string).  `mileage` is the result of
`int(mileage) if mileage.isdigit() else None` on the stripped field. -/
structure BookingForm where
  first_name : String
  last_name : String
  phone : String
  email : String
  address : String
  vrm : String
  make : String
  model : String
  mileage : Option ℕ
  booking_date : String
  notes : String
  qty : ℕ → Option ℤ
  custom : List CustomItemForm

/-- Python `str.upper()` (ASCII). -/
def pyUpper (s : String) : String := ⟨s.data.map Char.toUpper⟩

/-- Python `str.lower()` (ASCII). -/
def pyLower (s : String) : String := ⟨s.data.map Char.toLower⟩

/-- One iteration of the catalog-services loop in `process_new_booking`: read
`qty_{svc.id}` (`except ValueError: qty = 0`), and if `qty > 0` insert a
`booking_items` row and add the line total and line VAT to the running
totals.  The accumulator carries the `booking_items` table and the running
`(total_ex_vat, total_vat)`. -/
def catalogStep (form : BookingForm) (booking_id : ℕ)
    (acc : List BookingItem × ℚ × ℚ) (svc : Service) : List BookingItem × ℚ × ℚ :=
  let qty : ℤ := (form.qty svc.id).getD 0
  if 0 < qty then
    let line_total : ℚ := (qty : ℚ) * svc.unit_price
    let line_vat : ℚ := line_total * svc.vat_rate
    (acc.1 ++ [⟨freshId (acc.1.map BookingItem.id), booking_id, svc.id, qty,
        svc.unit_price, svc.vat_rate⟩],
      acc.2.1 + line_total, acc.2.2 + line_vat)
  else acc

/-- One iteration of the custom/misc-items loop in `process_new_booking`:
skip when the stripped name is empty; default an unparsable quantity to `0`,
an unparsable price to `0.0` and an unparsable VAT rate to `0.20`; if
`qty_int > 0 and price_float > 0` insert a `misc_items` row and accumulate
the line total and line VAT. -/
def miscStep (booking_id : ℕ)
    (acc : List MiscItem × ℚ × ℚ) (it : CustomItemForm) : List MiscItem × ℚ × ℚ :=
  let name_val := pyStrip it.name
  if name_val = ("") then acc
  else
    let qty_int : ℤ := it.qty.getD 0
    let price_float : ℚ := it.price.getD 0
    let vat_float : ℚ := it.vat.getD 0.20
    if 0 < qty_int ∧ 0 < price_float then
      let line_total : ℚ := (qty_int : ℚ) * price_float
      let line_vat : ℚ := line_total * vat_float
      (acc.1 ++ [⟨freshId (acc.1.map MiscItem.id), booking_id, name_val, qty_int,
          price_float, vat_float⟩],
        acc.2.1 + line_total, acc.2.2 + line_vat)
    else acc

/-- The stored `booking_date`: the stripped submitted field when non-empty and
accepted by `strptime(date_str, '%Y-%m-%d')`, else `date.today().isoformat()`
(the `except ValueError` branch). -/
def newBookingDate (form : BookingForm) (todayISO : String) : String :=
  let date_str := pyStrip form.booking_date
  if date_str ≠ ("") then
    if (strptimeYmd date_str).isSome then date_str else todayISO
  else todayISO

/-- The `customers` row `process_new_booking` inserts. -/
def newCustomer (s : Store) (form : BookingForm) : Customer :=
  ⟨freshId (s.customers.map Customer.id), pyStrip form.first_name,
    pyStrip form.last_name, pyStrip form.phone, pyStrip form.email,
    pyStrip form.address⟩

/-- The `vehicles` row `process_new_booking` inserts (VRM upper-cased). -/
def newVehicle (s : Store) (form : BookingForm) : Vehicle :=
  ⟨freshId (s.vehicles.map Vehicle.id), freshId (s.customers.map Customer.id),
    pyUpper (pyStrip form.vrm), pyStrip form.make, pyStrip form.model,
    form.mileage⟩

/-- The `bookings` row `process_new_booking` inserts (status `'booked'`). -/
def newBooking (s : Store) (form : BookingForm) (todayISO : String) : Booking :=
  ⟨freshId (s.bookings.map Booking.id), freshId (s.customers.map Customer.id),
    freshId (s.vehicles.map Vehicle.id), newBookingDate form todayISO,
    pyStrip form.notes, "booked"⟩

/-- The catalog-services loop of `process_new_booking`: fold `catalogStep`
over the `services` table, starting from the current `booking_items` table
and zero totals. -/
def catResult (s : Store) (form : BookingForm) : List BookingItem × ℚ × ℚ :=
  s.services.foldl (catalogStep form (freshId (s.bookings.map Booking.id)))
    (s.booking_items, 0, 0)

/-- The custom/misc-items loop of `process_new_booking` (`for i in
range(1, 4)`), continuing the totals accumulated by the catalog loop. -/
def mscResult (s : Store) (form : BookingForm) : List MiscItem × ℚ × ℚ :=
  (form.custom.take 3).foldl (miscStep (freshId (s.bookings.map Booking.id)))
    (s.misc_items, (catResult s form).2.1, (catResult s form).2.2)

/-- The `(total_ex_vat, total_vat)` pair `process_new_booking` has accumulated
after both loops. -/
def bookingTotals (s : Store) (form : BookingForm) : ℚ × ℚ :=
  ((mscResult s form).2.1, (mscResult s form).2.2)

/-- The `invoices` row `process_new_booking` inserts when `total_ex_vat > 0`:
number from `next_invoice_number`, issue date today, the accumulated totals,
`total_inc = total_ex_vat + total_vat`, status `'unpaid'`. -/
def mkNewInvoice (s : Store) (form : BookingForm) (today8 todayISO : String) : Invoice :=
  ⟨freshId (s.invoices.map Invoice.id), freshId (s.bookings.map Booking.id),
    nextInvoiceNumber s.invoices today8, todayISO, (bookingTotals s form).1,
    (bookingTotals s form).2, (bookingTotals s form).1 + (bookingTotals s form).2,
    "unpaid"⟩

/-- `process_new_booking`: create customer, vehicle and booking rows, insert
the qualifying catalog and misc line items while accumulating totals, create
an invoice exactly when `total_ex_vat > 0`, and answer with a 303 redirect to
the new invoice page (else to the dashboard).  `today8` is today formatted
`%Y%m%d` (used by `next_invoice_number`) and `todayISO` today's
`date.today().isoformat()`. -/
def processNewBooking (s : Store) (form : BookingForm) (today8 todayISO : String) :
    Store × Response :=
  if 0 < (bookingTotals s form).1 then
    ({ s with
        customers := s.customers ++ [newCustomer s form],
        vehicles := s.vehicles ++ [newVehicle s form],
        bookings := s.bookings ++ [newBooking s form todayISO],
        booking_items := (catResult s form).1,
        misc_items := (mscResult s form).1,
        invoices := s.invoices ++ [mkNewInvoice s form today8 todayISO] },
      Response.redirect 303 (("/invoice/") ++ natStr (freshId (s.invoices.map Invoice.id))))
  else
    ({ s with
        customers := s.customers ++ [newCustomer s form],
        vehicles := s.vehicles ++ [newVehicle s form],
        bookings := s.bookings ++ [newBooking s form todayISO],
        booking_items := (catResult s form).1,
        misc_items := (mscResult s form).1 },
      Response.redirect 303 ("/"))

/-- The misc-loop admission test with its defaults, as a partial map: `none`
when the stripped name is empty or `qty_int > 0 and price_float > 0` fails,
else the `(name, quantity, unit_price, vat_rate)` the inserted row carries
(unparsable quantity defaulted to `0`, price to `0.0`, VAT rate to `0.20`). -/
def miscQualify (it : CustomItemForm) : Option (String × ℤ × ℚ × ℚ) :=
  let name_val := pyStrip it.name
  if name_val = ("") then none
  else
    let qty_int : ℤ := it.qty.getD 0
    let price_float : ℚ := it.price.getD 0
    let vat_float : ℚ := it.vat.getD 0.20
    if 0 < qty_int ∧ 0 < price_float then
      some (name_val, qty_int, price_float, vat_float)
    else none

/-! ## `POST /booking/cancel` (`process_cancel_booking`) -/

/-- `process_cancel_booking`: `booking_id?` is the `int()` parse result of the
`booking_id` field (`none` answers 400).  Otherwise set the status of every
`bookings` row with that id and every `invoices` row with that `booking_id`
to `'canceled'` and redirect 303 to `/bookings`. -/
def processCancelBooking (s : Store) (booking_id? : Option ℤ) : Store × Response :=
  match booking_id? with
  | none => (s, Response.error 400 ("Invalid booking ID"))
  | some bid =>
      ({ s with
          bookings := s.bookings.map (fun b =>
            if (b.id : ℤ) = bid then { b with status := ("canceled") } else b),
          invoices := s.invoices.map (fun i =>
            if (i.booking_id : ℤ) = bid then { i with status := ("canceled") } else i) },
        Response.redirect 303 ("/bookings"))

/-! ## `GET /invoice/{id}` (`handle_invoice`) -/

/-- Python `'interim' in name.lower()`. -/
def containsInterim (name : String) : Bool :=
  decide (("interim").data <:+: (pyLower name).data)

/-- The data `handle_invoice` derives for the invoice page, with the two
computed dates as proleptic-Gregorian ordinals (`strftime` rendering of those
ordinals is presentation only). -/
structure Rendered where
  invoice_number : String
  issue_date : String
  issue_ordinal : ℕ
  due_ordinal : ℤ
  next_service_ordinal : ℤ
  service_names : List String
  total_ex_vat : ℚ
  total_vat : ℚ
  total_inc : ℚ
deriving DecidableEq

/-- `handle_invoice`: fetch the invoice joined with its booking, customer and
vehicle (`none` models the 404 of a missing row), join `booking_items` with
`services` for names, append `misc_items`, compute `due_date = issue +
payment_terms_days` (setting parsed by `int()`, default `'14'` when the key is
absent, `14` on `ValueError`) and `next_service_date = issue + 30 * months`
where `months = 6` iff some item name contains `"interim"` case-insensitively
(the loop-with-break over `service_names`), else `12`. -/
def handleInvoice (s : Store) (invoice_id : ℕ) : Option Rendered :=
  match s.invoices.find? (fun i => i.id == invoice_id) with
  | none => none
  | some inv =>
    match s.bookings.find? (fun b => b.id == inv.booking_id) with
    | none => none
    | some b =>
      match s.customers.find? (fun c => c.id == b.customer_id) with
      | none => none
      | some _c =>
        match s.vehicles.find? (fun v => v.id == b.vehicle_id) with
        | none => none
        | some _v =>
          let items : List (String × ℤ × ℚ × ℚ) :=
            (s.booking_items.filter (fun bi => bi.booking_id == b.id)).filterMap
              (fun bi => (s.services.find? (fun svc => svc.id == bi.service_id)).map
                (fun svc => (svc.name, bi.quantity, bi.unit_price, bi.vat_rate)))
          let misc : List (String × ℤ × ℚ × ℚ) :=
            (s.misc_items.filter (fun mi => mi.booking_id == b.id)).map
              (fun mi => (mi.name, mi.quantity, mi.unit_price, mi.vat_rate))
          let allItems := items ++ misc
          let service_names := allItems.map (fun t => t.1)
          match strptimeYmd inv.issue_date with
          | none => none
          | some ymd =>
            let issue_ord := toOrdinal ymd.1 ymd.2.1 ymd.2.2
            let days : ℤ :=
              match pyInt? ((getSetting s.settings ("payment_terms_days")).getD ("14")) with
              | some n => n
              | none => 14
            let months : ℕ := if service_names.any containsInterim then 6 else 12
            some { invoice_number := inv.invoice_number, issue_date := inv.issue_date,
                   issue_ordinal := issue_ord,
                   due_ordinal := (issue_ord : ℤ) + days,
                   next_service_ordinal := (issue_ord : ℤ) + 30 * (months : ℤ),
                   service_names := service_names,
                   total_ex_vat := inv.total_ex_vat, total_vat := inv.total_vat,
                   total_inc := inv.total_inc }

/-! ## Line sums and the loop characterizations -/

/-- Σ `line_ex` (`quantity * unit_price`) over a list of booking items. -/
def sumLineEx (items : List BookingItem) : ℚ :=
  (items.map (fun bi => (bi.quantity : ℚ) * bi.unit_price)).sum

/-- Σ `line_vat` (`quantity * unit_price * vat_rate`) over booking items. -/
def sumLineVat (items : List BookingItem) : ℚ :=
  (items.map (fun bi => (bi.quantity : ℚ) * bi.unit_price * bi.vat_rate)).sum

/-- Σ `line_ex` over misc items. -/
def sumMiscEx (items : List MiscItem) : ℚ :=
  (items.map (fun mi => (mi.quantity : ℚ) * mi.unit_price)).sum

/-- Σ `line_vat` over misc items. -/
def sumMiscVat (items : List MiscItem) : ℚ :=
  (items.map (fun mi => (mi.quantity : ℚ) * mi.unit_price * mi.vat_rate)).sum

theorem catalogFold_spec (form : BookingForm) (bid : ℕ) (l : List Service) :
    ∀ acc : List BookingItem × ℚ × ℚ,
      ∃ new : List BookingItem,
        (l.foldl (catalogStep form bid) acc).1 = acc.1 ++ new
        ∧ (l.foldl (catalogStep form bid) acc).2.1 = acc.2.1 + sumLineEx new
        ∧ (l.foldl (catalogStep form bid) acc).2.2 = acc.2.2 + sumLineVat new := by
  induction l with
  | nil =>
      intro acc
      exact ⟨[], by simp [sumLineEx, sumLineVat]⟩
  | cons svc t ih =>
      intro acc
      simp only [List.foldl_cons]
      by_cases hq : 0 < (form.qty svc.id).getD 0
      · obtain ⟨new, h1, h2, h3⟩ := ih (catalogStep form bid acc svc)
        refine ⟨⟨freshId (acc.1.map BookingItem.id), bid, svc.id,
          (form.qty svc.id).getD 0, svc.unit_price, svc.vat_rate⟩ :: new, ?_, ?_, ?_⟩
        · rw [h1]; simp [catalogStep, hq]
        · rw [h2]; simp [catalogStep, hq, sumLineEx]; ring
        · rw [h3]; simp [catalogStep, hq, sumLineVat]; ring
      · obtain ⟨new, h1, h2, h3⟩ := ih (catalogStep form bid acc svc)
        refine ⟨new, ?_, ?_, ?_⟩
        · rw [h1]; simp [catalogStep, hq]
        · rw [h2]; simp [catalogStep, hq]
        · rw [h3]; simp [catalogStep, hq]

theorem miscFold_spec (bid : ℕ) (l : List CustomItemForm) :
    ∀ acc : List MiscItem × ℚ × ℚ,
      ∃ new : List MiscItem,
        (l.foldl (miscStep bid) acc).1 = acc.1 ++ new
        ∧ (l.foldl (miscStep bid) acc).2.1 = acc.2.1 + sumMiscEx new
        ∧ (l.foldl (miscStep bid) acc).2.2 = acc.2.2 + sumMiscVat new
        ∧ new.map (fun m => (m.name, m.quantity, m.unit_price, m.vat_rate))
            = l.filterMap miscQualify := by
  induction l with
  | nil =>
      intro acc
      exact ⟨[], by simp [sumMiscEx, sumMiscVat]⟩
  | cons it t ih =>
      intro acc
      simp only [List.foldl_cons, List.filterMap_cons]
      by_cases hn : pyStrip it.name = ("")
      · obtain ⟨new, h1, h2, h3, h4⟩ := ih (miscStep bid acc it)
        refine ⟨new, ?_, ?_, ?_, ?_⟩
        · rw [h1]; simp [miscStep, hn]
        · rw [h2]; simp [miscStep, hn]
        · rw [h3]; simp [miscStep, hn]
        · simp [miscQualify, hn, h4]
      · by_cases hqp : 0 < it.qty.getD 0 ∧ 0 < it.price.getD 0
        · obtain ⟨new, h1, h2, h3, h4⟩ := ih (miscStep bid acc it)
          refine ⟨⟨freshId (acc.1.map MiscItem.id), bid, pyStrip it.name,
            it.qty.getD 0, it.price.getD 0, it.vat.getD 0.20⟩ :: new, ?_, ?_, ?_, ?_⟩
          · rw [h1]; simp [miscStep, hn, hqp]
          · rw [h2]; simp [miscStep, hn, hqp, sumMiscEx]; ring
          · rw [h3]; simp [miscStep, hn, hqp, sumMiscVat]; ring
          · simp [miscQualify, hn, hqp, h4]
        · obtain ⟨new, h1, h2, h3, h4⟩ := ih (miscStep bid acc it)
          refine ⟨new, ?_, ?_, ?_, ?_⟩
          · rw [h1]; simp [miscStep, hn, hqp]
          · rw [h2]; simp [miscStep, hn, hqp]
          · rw [h3]; simp [miscStep, hn, hqp]
          · simp [miscQualify, hn, hqp, h4]

theorem processNewBooking_fst (s : Store) (form : BookingForm) (today8 todayISO : String) :
    (processNewBooking s form today8 todayISO).1 =
      { customers := s.customers ++ [newCustomer s form],
        vehicles := s.vehicles ++ [newVehicle s form],
        services := s.services,
        bookings := s.bookings ++ [newBooking s form todayISO],
        booking_items := (catResult s form).1,
        misc_items := (mscResult s form).1,
        invoices := s.invoices ++
          (if 0 < (bookingTotals s form).1 then [mkNewInvoice s form today8 todayISO] else []),
        settings := s.settings } := by
  unfold processNewBooking
  split <;> simp

theorem processNewBooking_snd (s : Store) (form : BookingForm) (today8 todayISO : String) :
    (processNewBooking s form today8 todayISO).2 =
      (if 0 < (bookingTotals s form).1
       then Response.redirect 303 (("/invoice/") ++ natStr (freshId (s.invoices.map Invoice.id)))
       else Response.redirect 303 ("/")) := by
  unfold processNewBooking
  split <;> rfl

theorem processNewBooking_items_spec (s : Store) (form : BookingForm) :
    ∃ newB newM,
      (catResult s form).1 = s.booking_items ++ newB
      ∧ (mscResult s form).1 = s.misc_items ++ newM
      ∧ (bookingTotals s form).1 = sumLineEx newB + sumMiscEx newM
      ∧ (bookingTotals s form).2 = sumLineVat newB + sumMiscVat newM
      ∧ newM.map (fun m => (m.name, m.quantity, m.unit_price, m.vat_rate))
          = (form.custom.take 3).filterMap miscQualify := by
  obtain ⟨newB, hB1, hB2, hB3⟩ :=
    catalogFold_spec form (freshId (s.bookings.map Booking.id)) s.services
      (s.booking_items, 0, 0)
  obtain ⟨newM, hM1, hM2, hM3, hM4⟩ :=
    miscFold_spec (freshId (s.bookings.map Booking.id)) (form.custom.take 3)
      (s.misc_items, (catResult s form).2.1, (catResult s form).2.2)
  refine ⟨newB, newM, ?_, ?_, ?_, ?_, hM4⟩
  · simpa [catResult] using hB1
  · simpa [mscResult] using hM1
  · have h1 : (catResult s form).2.1 = sumLineEx newB := by
      simpa [catResult] using hB2
    have : (mscResult s form).2.1 = (catResult s form).2.1 + sumMiscEx newM := by
      simpa [mscResult] using hM2
    simp [bookingTotals, this, h1]
  · have h1 : (catResult s form).2.2 = sumLineVat newB := by
      simpa [catResult] using hB3
    have : (mscResult s form).2.2 = (catResult s form).2.2 + sumMiscVat newM := by
      simpa [mscResult] using hM3
    simp [bookingTotals, this, h1]

/-! ## Concrete submissions used by scenarios and witnesses -/

/-- A baseline submission: no catalog quantities, no custom items. -/
def blankForm : BookingForm :=
  { first_name := "Ada", last_name := "Lovelace", phone := "07000 000000",
    email := "ada@example.com", address := "1 Analytical Way", vrm := "ab12 cde",
    make := "Ford", model := "Focus", mileage := some 42000,
    booking_date := "", notes := "", qty := fun _ => some 0, custom := [] }

/-- Quantity 2 of catalog service 1 (Full Service, £200.00, VAT 0.20). -/
def qty2FullServiceForm : BookingForm :=
  { blankForm with
      booking_date := "2026-10-12",
      qty := fun i => if i = 1 then some 2 else some 0 }

/-- Only `custom_name_1="Tow fee", custom_qty_1=1, custom_price_1=50,
custom_vat_1=""` (the empty VAT string fails `float()` and defaults). -/
def towFeeForm : BookingForm :=
  { blankForm with custom := [⟨"Tow fee", some 1, some 50, none⟩] }

/-- Quantity 1 of catalog service 2 (Interim Service). -/
def interimForm : BookingForm :=
  { blankForm with qty := fun i => if i = 2 then some 1 else some 0 }

/-- `qty2FullServiceForm` with the unpadded-but-strptime-accepted date `2026-1-2`. -/
def unpaddedDateForm : BookingForm :=
  { qty2FullServiceForm with booking_date := "2026-1-2" }

/-! ## C1: stored invoice totals are the exact sums of the line items -/

/-- **C1.** For every submitted booking, the stored invoice totals are the
exact sums of its persisted line items: `total_ex_vat = Σ quantity *
unit_price` and `total_vat = Σ quantity * unit_price * vat_rate` over the
freshly inserted catalog and misc rows, and `total_inc = total_ex_vat +
total_vat` exactly, with no per-line rounding before aggregation.  In
particular, qty 2 of a £200.00 service at VAT rate 0.20 yields totals
`(400, 80, 480)`. -/
theorem invoice_totals_are_exact_sums (s : Store) (form : BookingForm)
    (today8 todayISO : String) (inv : Invoice)
    (hmem : inv ∈ (processNewBooking s form today8 todayISO).1.invoices)
    (hnew : inv ∉ s.invoices) :
    (inv.total_ex_vat
        = sumLineEx ((processNewBooking s form today8 todayISO).1.booking_items.drop
            s.booking_items.length)
          + sumMiscEx ((processNewBooking s form today8 todayISO).1.misc_items.drop
            s.misc_items.length)
      ∧ inv.total_vat
        = sumLineVat ((processNewBooking s form today8 todayISO).1.booking_items.drop
            s.booking_items.length)
          + sumMiscVat ((processNewBooking s form today8 todayISO).1.misc_items.drop
            s.misc_items.length)
      ∧ inv.total_inc = inv.total_ex_vat + inv.total_vat)
    ∧ (processNewBooking initStore qty2FullServiceForm ("20261012") ("2026-10-12")).1.invoices.map
        (fun i => (i.total_ex_vat, i.total_vat, i.total_inc)) = [(400, 80, 480)] := by
  obtain ⟨newB, newM, hB, hM, hte, htv, -⟩ := processNewBooking_items_spec s form
  rw [processNewBooking_fst] at hmem
  simp only [List.mem_append] at hmem
  rcases hmem with hold | hnewmem
  · exact absurd hold hnew
  · have hinv : inv = mkNewInvoice s form today8 todayISO := by
      rcases Decidable.em (0 < (bookingTotals s form).1) with hpos | hpos <;>
        simp [hpos] at hnewmem
      exact hnewmem
    constructor
    · rw [processNewBooking_fst]
      simp only [hB, hM, List.drop_left]
      subst hinv
      exact ⟨by simpa [mkNewInvoice] using hte, by simpa [mkNewInvoice] using htv, rfl⟩
    · norm_num [processNewBooking, bookingTotals, mscResult, catResult, catalogStep,
        miscStep, initStore, seedServices, qty2FullServiceForm, blankForm, mkNewInvoice,
        nextInvoiceNumber, freshId, newBooking, newCustomer, newVehicle]

/-- **C1 witness**: the theorem applied to the concrete qty-2 Full Service
submission on the freshly seeded store. -/
theorem invoice_totals_are_exact_sums_witness :
    ((mkNewInvoice initStore qty2FullServiceForm ("20261012") ("2026-10-12")).total_ex_vat
        = sumLineEx ((processNewBooking initStore qty2FullServiceForm ("20261012")
              ("2026-10-12")).1.booking_items.drop initStore.booking_items.length)
          + sumMiscEx ((processNewBooking initStore qty2FullServiceForm ("20261012")
              ("2026-10-12")).1.misc_items.drop initStore.misc_items.length)
      ∧ (mkNewInvoice initStore qty2FullServiceForm ("20261012") ("2026-10-12")).total_vat
        = sumLineVat ((processNewBooking initStore qty2FullServiceForm ("20261012")
              ("2026-10-12")).1.booking_items.drop initStore.booking_items.length)
          + sumMiscVat ((processNewBooking initStore qty2FullServiceForm ("20261012")
              ("2026-10-12")).1.misc_items.drop initStore.misc_items.length)
      ∧ (mkNewInvoice initStore qty2FullServiceForm ("20261012") ("2026-10-12")).total_inc
        = (mkNewInvoice initStore qty2FullServiceForm ("20261012") ("2026-10-12")).total_ex_vat
          + (mkNewInvoice initStore qty2FullServiceForm ("20261012") ("2026-10-12")).total_vat)
    ∧ (processNewBooking initStore qty2FullServiceForm ("20261012") ("2026-10-12")).1.invoices.map
        (fun i => (i.total_ex_vat, i.total_vat, i.total_inc)) = [(400, 80, 480)] :=
  invoice_totals_are_exact_sums initStore qty2FullServiceForm ("20261012") ("2026-10-12")
    (mkNewInvoice initStore qty2FullServiceForm ("20261012") ("2026-10-12"))
    (by
      rw [processNewBooking_fst]
      have hpos : 0 < (bookingTotals initStore qty2FullServiceForm).1 := by
        norm_num [bookingTotals, mscResult, catResult, catalogStep, miscStep,
          initStore, seedServices, qty2FullServiceForm, blankForm, freshId]
      simp [hpos])
    (by simp [initStore])

/-! ## C2: an invoice is created iff the total is positive -/

/-- **C2.** For every booking submission, an `invoices` row is appended iff
the accumulated `total_ex_vat` is strictly positive; when it is, the response
is a 303 redirect to `/invoice/{id}` of the new invoice, and otherwise no
invoice is created, the booking row is still created, and the response is a
303 redirect to `/`. -/
theorem invoice_created_iff_positive_total (s : Store) (form : BookingForm)
    (today8 todayISO : String) :
    ((processNewBooking s form today8 todayISO).1.invoices
        = s.invoices ++ (if 0 < (bookingTotals s form).1
            then [mkNewInvoice s form today8 todayISO] else []))
    ∧ ((processNewBooking s form today8 todayISO).2
        = (if 0 < (bookingTotals s form).1
           then Response.redirect 303
              (("/invoice/") ++ natStr (mkNewInvoice s form today8 todayISO).id)
           else Response.redirect 303 ("/")))
    ∧ (processNewBooking s form today8 todayISO).1.bookings
        = s.bookings ++ [newBooking s form todayISO] := by
  refine ⟨?_, ?_, ?_⟩
  · rw [processNewBooking_fst]
  · rw [processNewBooking_snd]; rfl
  · rw [processNewBooking_fst]

/-! ## C5: custom/misc item defaults and admission conditions -/

/-- **C5.** The misc rows a submission persists are exactly the images under
`miscQualify` of the (up to three) submitted custom items: an unparsable
quantity is treated as `0`, an unparsable price as `0.0`, an absent or
unparsable VAT rate as the default `0.20`, and an item is persisted (and
counted) only when its stripped name is non-empty, its quantity is positive
and its price is positive — others are silently skipped.  In particular the
`Tow fee` submission (qty 1, price 50, empty VAT) yields totals
`(50, 10, 60)`. -/
theorem misc_item_defaults_and_persistence (s : Store) (form : BookingForm)
    (today8 todayISO : String) :
    (((processNewBooking s form today8 todayISO).1.misc_items.drop
          s.misc_items.length).map (fun m => (m.name, m.quantity, m.unit_price, m.vat_rate))
        = (form.custom.take 3).filterMap miscQualify)
    ∧ (processNewBooking initStore towFeeForm ("20261012") ("2026-10-12")).1.invoices.map
        (fun i => (i.total_ex_vat, i.total_vat, i.total_inc)) = [(50, 10, 60)] := by
  constructor
  · obtain ⟨newB, newM, hB, hM, hte, htv, hq⟩ := processNewBooking_items_spec s form
    rw [processNewBooking_fst]
    simp only [hM, List.drop_left]
    exact hq
  · have h1 : pyStrip ("Tow fee") = ("Tow fee") := by decide
    have h2 : (("Tow fee" : String) = ("")) = False := by
      simp only [eq_iff_iff, iff_false]
      decide
    norm_num [processNewBooking, bookingTotals, mscResult, catResult, catalogStep,
      miscStep, initStore, seedServices, towFeeForm, blankForm, mkNewInvoice,
      nextInvoiceNumber, freshId, miscQualify, h1, h2]

/-! ## C9: stored booking date (corrected) -/

/-- Strict ISO-8601 `YYYY-MM-DD` — modelled from the claim's words: exactly
ten characters (four-digit year, zero-padded two-digit month and day) naming
a valid calendar date. -/
def isStrictISODate (s : String) : Bool := s.length == 10 && (strptimeYmd s).isSome

/-- **C9 counterexample.** The submitted date `"2026-1-2"` is not an ISO
`YYYY-MM-DD` date, yet the stored `booking_date` is `"2026-1-2"` itself —
not today's date (`"2026-10-12"`) as the claim requires for a malformed
field: CPython's `strptime('%Y-%m-%d')` accepts unpadded month and day. -/
theorem booking_date_counterexample :
    ((processNewBooking initStore unpaddedDateForm ("20261012") ("2026-10-12")).1.bookings.map
        Booking.booking_date = [("2026-1-2")])
    ∧ isStrictISODate ("2026-1-2") = false
    ∧ ("2026-1-2") ≠ ("2026-10-12") := by
  refine ⟨?_, by decide, by decide⟩
  rw [processNewBooking_fst]
  simp [initStore, newBooking, newBookingDate, unpaddedDateForm, qty2FullServiceForm,
    blankForm, pyStrip]
  decide

/-- **C9 amended.** For every booking submission, the stored `booking_date`
is the stripped submitted field whenever it is non-empty and accepted by
Python's `strptime` with format `%Y-%m-%d` (which also accepts unpadded
month and day), and today's date when the field is absent, empty, or
otherwise malformed; a malformed date never fails the request — the booking
row is still appended and the response is still a 303 redirect. -/
theorem booking_date_stored_rule (s : Store) (form : BookingForm)
    (today8 todayISO : String) :
    ((processNewBooking s form today8 todayISO).1.bookings.map Booking.booking_date
      = s.bookings.map Booking.booking_date ++
        [if pyStrip form.booking_date ≠ ("")
            ∧ (strptimeYmd (pyStrip form.booking_date)).isSome = true
         then pyStrip form.booking_date else todayISO])
    ∧ ∃ loc, (processNewBooking s form today8 todayISO).2 = Response.redirect 303 loc := by
  constructor
  · rw [processNewBooking_fst]
    simp only [List.map_append, List.map_cons, List.map_nil, List.append_cancel_left_eq,
      newBooking, newBookingDate]
    split_ifs with h1 h2 h3 <;> simp_all
  · rw [processNewBooking_snd]
    by_cases h : 0 < (bookingTotals s form).1 <;> simp [h]

/-! ## C4: invoice number format (corrected) -/

/-- Modelled from the claim's words: `INV{YYYYMMDD}{next_id zero-padded to 3
digits}`, i.e. nothing between the date and the sequence. -/
def claimedInvoiceNumberC4 (today8 : String) (next_id : ℕ) : String :=
  ("INV") ++ today8 ++ seq3 next_id

/-- **C4 counterexample.** With no existing invoices on 2026-10-12 the
generated number is `INV20261012-001`, not the claimed `INV20261012001`:
the code puts a hyphen between the date and the sequence. -/
theorem invoice_number_format_counterexample :
    nextInvoiceNumber [] ("20261012") = ("INV20261012-001")
    ∧ nextInvoiceNumber [] ("20261012") ≠ claimedInvoiceNumberC4 ("20261012") 1 := by
  constructor <;> decide

/-- **C4 amended.** Every invoice created by a booking submission is numbered
`INV{YYYYMMDD}-{next_id zero-padded to 3 digits}` — with a hyphen separating
date and sequence — where `YYYYMMDD` is the current date and `next_id` (which
is also the new invoice's id) equals the maximum existing invoice id plus 1,
or 1 if no invoices exist. -/
theorem invoice_number_format_hyphenated (s : Store) (form : BookingForm)
    (today8 todayISO : String) (inv : Invoice)
    (hmem : inv ∈ (processNewBooking s form today8 todayISO).1.invoices)
    (hnew : inv ∉ s.invoices) :
    inv.invoice_number = ("INV") ++ today8 ++ ("-") ++ seq3 inv.id
    ∧ inv.id = (match s.invoices with
        | [] => 1
        | _ :: _ => (s.invoices.map Invoice.id).foldr max 0 + 1) := by
  rw [processNewBooking_fst] at hmem
  simp only [List.mem_append] at hmem
  rcases hmem with hold | hnewmem
  · exact absurd hold hnew
  · have hinv : inv = mkNewInvoice s form today8 todayISO := by
      rcases Decidable.em (0 < (bookingTotals s form).1) with hpos | hpos <;>
        simp [hpos] at hnewmem
      exact hnewmem
    subst hinv
    cases hs : s.invoices <;>
      simp [mkNewInvoice, nextInvoiceNumber, freshId, hs]

/-- **C4 amended witness**: the amended theorem applied to the qty-2 Full
Service submission on the freshly seeded store. -/
theorem invoice_number_format_hyphenated_witness :
    (mkNewInvoice initStore qty2FullServiceForm ("20261012") ("2026-10-12")).invoice_number
        = ("INV") ++ ("20261012") ++ ("-")
          ++ seq3 (mkNewInvoice initStore qty2FullServiceForm ("20261012") ("2026-10-12")).id
    ∧ (mkNewInvoice initStore qty2FullServiceForm ("20261012") ("2026-10-12")).id
        = (match initStore.invoices with
            | [] => 1
            | _ :: _ => (initStore.invoices.map Invoice.id).foldr max 0 + 1) :=
  invoice_number_format_hyphenated initStore qty2FullServiceForm ("20261012") ("2026-10-12")
    (mkNewInvoice initStore qty2FullServiceForm ("20261012") ("2026-10-12"))
    (by
      rw [processNewBooking_fst]
      have hpos : 0 < (bookingTotals initStore qty2FullServiceForm).1 := by
        norm_num [bookingTotals, mscResult, catResult, catalogStep, miscStep,
          initStore, seedServices, qty2FullServiceForm, blankForm, freshId]
      simp [hpos])
    (by simp [initStore])

/-! ## C6: due date from payment terms -/

/-- **C6.** For every rendered invoice, `due_date` equals `issue_date` plus
`payment_terms_days` calendar days, where `payment_terms_days` is the
configured setting parsed as an integer, and `14` when the setting is
missing or unparsable. -/
theorem due_date_from_payment_terms (s : Store) (iid : ℕ) (r : Rendered)
    (h : handleInvoice s iid = some r) :
    r.due_ordinal = (r.issue_ordinal : ℤ) +
      (match getSetting s.settings ("payment_terms_days") with
       | none => 14
       | some v => (pyInt? v).getD 14) := by
  unfold handleInvoice at h
  split at h
  any_goals exact Option.noConfusion h
  split at h
  any_goals exact Option.noConfusion h
  split at h
  any_goals exact Option.noConfusion h
  split at h
  any_goals exact Option.noConfusion h
  split at h
  any_goals exact Option.noConfusion h
  simp only [Option.some.injEq] at h
  subst h
  simp only []
  cases hg : getSetting s.settings ("payment_terms_days") with
  | none =>
      have h14 : pyInt? ("14") = some 14 := by decide
      simp [hg, h14]
  | some v =>
      cases hv : pyInt? v <;> simp [hg, hv]

/-! ## C7: next service date and the interim rule -/

/-- **C7.** For every rendered invoice, `next_service_date` equals
`issue_date` plus `30 * 6 = 180` calendar days if any line-item name
(catalog service or misc item) contains the case-insensitive substring
`interim`, and `issue_date` plus `30 * 12 = 360` calendar days otherwise. -/
theorem next_service_date_interim_rule (s : Store) (iid : ℕ) (r : Rendered)
    (h : handleInvoice s iid = some r) :
    r.next_service_ordinal = (r.issue_ordinal : ℤ) +
      (if r.service_names.any containsInterim then 180 else 360) := by
  unfold handleInvoice at h
  split at h
  any_goals exact Option.noConfusion h
  split at h
  any_goals exact Option.noConfusion h
  split at h
  any_goals exact Option.noConfusion h
  split at h
  any_goals exact Option.noConfusion h
  split at h
  any_goals exact Option.noConfusion h
  simp only [Option.some.injEq] at h
  subst h
  simp only []
  split <;> norm_num

/-! ## Concrete stores for the rendering witnesses -/

/-- A store holding one booked Full Service with its invoice. -/
def sampleStore : Store :=
  { initStore with
      customers := [⟨1, "Ada", "Lovelace", "", "", ""⟩],
      vehicles := [⟨1, 1, "AB12 CDE", "Ford", "Focus", none⟩],
      bookings := [⟨1, 1, 1, "2026-10-12", "", "booked"⟩],
      booking_items := [⟨1, 1, 1, 2, 200, 0⟩],
      invoices := [⟨1, 1, "INV20261012-001", "2026-10-12", 400, 80, 480, "unpaid"⟩] }

/-- What `handle_invoice` renders for `sampleStore`'s invoice 1. -/
def sampleRendered : Rendered :=
  { invoice_number := "INV20261012-001", issue_date := "2026-10-12",
    issue_ordinal := 739901, due_ordinal := 739915, next_service_ordinal := 740261,
    service_names := ["Full Service"], total_ex_vat := 400, total_vat := 80,
    total_inc := 480 }

/-- `sampleStore` with the booking item pointing at the Interim Service. -/
def sampleStoreInterim : Store :=
  { sampleStore with booking_items := [⟨1, 1, 2, 1, 120, 0⟩] }

/-- What `handle_invoice` renders for `sampleStoreInterim`'s invoice 1. -/
def sampleRenderedInterim : Rendered :=
  { invoice_number := "INV20261012-001", issue_date := "2026-10-12",
    issue_ordinal := 739901, due_ordinal := 739915, next_service_ordinal := 740081,
    service_names := ["Interim Service"], total_ex_vat := 400, total_vat := 80,
    total_inc := 480 }

/-- **C6 witness**: the due-date theorem applied to `sampleStore`, whose
settings hold the seeded `payment_terms_days = '14'`. -/
theorem due_date_from_payment_terms_witness :
    sampleRendered.due_ordinal = (sampleRendered.issue_ordinal : ℤ) +
      (match getSetting sampleStore.settings ("payment_terms_days") with
       | none => 14
       | some v => (pyInt? v).getD 14) :=
  due_date_from_payment_terms sampleStore 1 sampleRendered (by decide)

/-- **C7 witness**: the next-service theorem applied to the interim store
(180 days) — the hypothesis is discharged by evaluation. -/
theorem next_service_date_interim_rule_witness :
    sampleRenderedInterim.next_service_ordinal = (sampleRenderedInterim.issue_ordinal : ℤ) +
      (if sampleRenderedInterim.service_names.any containsInterim then 180 else 360) :=
  next_service_date_interim_rule sampleStoreInterim 1 sampleRenderedInterim (by decide)

/-! ## C8: cancellation touches only the two status fields, idempotently -/

/-- **C8.** For every existing booking id, cancellation changes only the two
status fields of the matching rows: the `status` column of `bookings` (resp.
`invoices`) becomes `canceled` exactly on the row with that id (resp. the
invoices of that booking) and is unchanged on every other row; every other
field of every `bookings` and `invoices` row is preserved, all other tables
are untouched, and cancelling the same booking a second time leaves the
store (and the response) exactly as after the first cancellation. -/
theorem cancel_sets_status_only_and_idempotent (s : Store) (bid : ℤ)
    (hex : ∃ b ∈ s.bookings, (b.id : ℤ) = bid) :
    ((processCancelBooking s (some bid)).1.bookings.map Booking.status
        = s.bookings.map (fun b => if (b.id : ℤ) = bid then ("canceled") else b.status))
    ∧ ((processCancelBooking s (some bid)).1.invoices.map Invoice.status
        = s.invoices.map (fun i => if (i.booking_id : ℤ) = bid then ("canceled") else i.status))
    ∧ (processCancelBooking s (some bid)).1.bookings.map
        (fun b => (b.id, b.customer_id, b.vehicle_id, b.booking_date, b.notes))
      = s.bookings.map (fun b => (b.id, b.customer_id, b.vehicle_id, b.booking_date, b.notes))
    ∧ (processCancelBooking s (some bid)).1.invoices.map
        (fun i => (i.id, i.booking_id, i.invoice_number, i.issue_date,
            i.total_ex_vat, i.total_vat, i.total_inc))
      = s.invoices.map (fun i => (i.id, i.booking_id, i.invoice_number, i.issue_date,
            i.total_ex_vat, i.total_vat, i.total_inc))
    ∧ (processCancelBooking s (some bid)).1.customers = s.customers
    ∧ (processCancelBooking s (some bid)).1.vehicles = s.vehicles
    ∧ (processCancelBooking s (some bid)).1.services = s.services
    ∧ (processCancelBooking s (some bid)).1.booking_items = s.booking_items
    ∧ (processCancelBooking s (some bid)).1.misc_items = s.misc_items
    ∧ (processCancelBooking s (some bid)).1.settings = s.settings
    ∧ processCancelBooking (processCancelBooking s (some bid)).1 (some bid)
        = processCancelBooking s (some bid) := by
  refine ⟨?_, ?_, ?_, ?_, rfl, rfl, rfl, rfl, rfl, rfl, ?_⟩
  · simp only [processCancelBooking, List.map_map]
    refine List.map_congr_left (fun a _ => ?_)
    by_cases h : (a.id : ℤ) = bid <;> simp [h]
  · simp only [processCancelBooking, List.map_map]
    refine List.map_congr_left (fun a _ => ?_)
    by_cases h : (a.booking_id : ℤ) = bid <;> simp [h]
  · simp only [processCancelBooking, List.map_map]
    refine List.map_congr_left (fun a _ => ?_)
    by_cases h : (a.id : ℤ) = bid <;> simp [h]
  · simp only [processCancelBooking, List.map_map]
    refine List.map_congr_left (fun a _ => ?_)
    by_cases h : (a.booking_id : ℤ) = bid <;> simp [h]
  · simp only [processCancelBooking, List.map_map]
    refine Prod.ext ?_ rfl
    refine Store.ext rfl rfl rfl ?_ rfl rfl ?_ rfl
    · refine List.map_congr_left (fun a _ => ?_)
      by_cases h : (a.id : ℤ) = bid <;> simp [h]
    · refine List.map_congr_left (fun a _ => ?_)
      by_cases h : (a.booking_id : ℤ) = bid <;> simp [h]

/-- **C8 witness**: cancelling booking 1 of `sampleStore`. -/
theorem cancel_sets_status_only_and_idempotent_witness :
    ((processCancelBooking sampleStore (some 1)).1.bookings.map Booking.status
        = sampleStore.bookings.map
          (fun b => if (b.id : ℤ) = 1 then ("canceled") else b.status))
    ∧ ((processCancelBooking sampleStore (some 1)).1.invoices.map Invoice.status
        = sampleStore.invoices.map
          (fun i => if (i.booking_id : ℤ) = 1 then ("canceled") else i.status))
    ∧ (processCancelBooking sampleStore (some 1)).1.bookings.map
        (fun b => (b.id, b.customer_id, b.vehicle_id, b.booking_date, b.notes))
      = sampleStore.bookings.map
        (fun b => (b.id, b.customer_id, b.vehicle_id, b.booking_date, b.notes))
    ∧ (processCancelBooking sampleStore (some 1)).1.invoices.map
        (fun i => (i.id, i.booking_id, i.invoice_number, i.issue_date,
            i.total_ex_vat, i.total_vat, i.total_inc))
      = sampleStore.invoices.map
        (fun i => (i.id, i.booking_id, i.invoice_number, i.issue_date,
            i.total_ex_vat, i.total_vat, i.total_inc))
    ∧ (processCancelBooking sampleStore (some 1)).1.customers = sampleStore.customers
    ∧ (processCancelBooking sampleStore (some 1)).1.vehicles = sampleStore.vehicles
    ∧ (processCancelBooking sampleStore (some 1)).1.services = sampleStore.services
    ∧ (processCancelBooking sampleStore (some 1)).1.booking_items = sampleStore.booking_items
    ∧ (processCancelBooking sampleStore (some 1)).1.misc_items = sampleStore.misc_items
    ∧ (processCancelBooking sampleStore (some 1)).1.settings = sampleStore.settings
    ∧ processCancelBooking (processCancelBooking sampleStore (some 1)).1 (some 1)
        = processCancelBooking sampleStore (some 1) :=
  cancel_sets_status_only_and_idempotent sampleStore 1
    ⟨⟨1, 1, 1, "2026-10-12", "", "booked"⟩, by decide, by decide⟩

/-! ## C10: cancelling a parseable but unknown booking id -/

/-- **C10.** For every `POST /booking/cancel` whose `booking_id` parses as an
integer but matches no existing booking, the handler answers with a 303
redirect to `/bookings` — not a 404 or 400 — and the store is completely
unchanged.  (The hypothesis on invoices holds in every store the application
builds: each invoice references its booking.) -/
theorem cancel_unknown_booking_noop (s : Store) (bid : ℤ)
    (hb : ∀ b ∈ s.bookings, (b.id : ℤ) ≠ bid)
    (hwf : ∀ i ∈ s.invoices, ∃ b ∈ s.bookings, b.id = i.booking_id) :
    processCancelBooking s (some bid) = (s, Response.redirect 303 ("/bookings")) := by
  simp only [processCancelBooking, Prod.mk.injEq]
  have h1 : s.bookings.map (fun b =>
      if (b.id : ℤ) = bid then { b with status := ("canceled") } else b) = s.bookings := by
    conv_rhs => rw [← List.map_id s.bookings]
    refine List.map_congr_left (fun a ha => ?_)
    simp [hb a ha]
  have h2 : s.invoices.map (fun i =>
      if (i.booking_id : ℤ) = bid then { i with status := ("canceled") } else i)
      = s.invoices := by
    conv_rhs => rw [← List.map_id s.invoices]
    refine List.map_congr_left (fun i hi => ?_)
    obtain ⟨b, hbmem, hbid⟩ := hwf i hi
    have : (i.booking_id : ℤ) ≠ bid := by
      rw [← hbid]
      exact hb b hbmem
    simp [this]
  rw [h1, h2]
  exact ⟨rfl, trivial⟩

/-- **C10 witness**: cancelling the unknown booking id 2 on `sampleStore`
(which has only booking 1) is a no-op redirect. -/
theorem cancel_unknown_booking_noop_witness :
    processCancelBooking sampleStore (some 2)
      = (sampleStore, Response.redirect 303 ("/bookings")) :=
  cancel_unknown_booking_noop sampleStore 2 (by decide)
    (fun i hi => ⟨⟨1, 1, 1, "2026-10-12", "", "booked"⟩, by decide, by
      have : i = (⟨1, 1, "INV20261012-001", "2026-10-12", 400, 80, 480, "unpaid"⟩ : Invoice) := by
        simpa [sampleStore, initStore] using hi
      rw [this]⟩)

/-! ## C3: uniqueness and shape of invoice numbers across a run -/

/-- The invoice-number pattern of the spec: `INV`, an 8-digit date, a hyphen,
then the zero-padded (minimum width 3) decimal sequence. -/
def matchesInvPattern (str : String) : Bool :=
  match str.data with
  | 'I' :: 'N' :: 'V' :: rest =>
      ((rest.take 8).length == 8) && allDigits (rest.take 8) &&
        (match rest.drop 8 with
         | '-' :: tl => decide (3 ≤ tl.length) && allDigits tl
         | _ => false)
  | _ => false

/-- One request the server can serve: a booking submission (`today8` is the
current date rendered `%Y%m%d`, eight digits for any contemporary date) or a
cancellation. -/
inductive Step : Store → Store → Prop
  | submit (s : Store) (form : BookingForm) (today8 todayISO : String)
      (hlen : today8.length = 8) (hdig : allDigits today8.data = true) :
      Step s (processNewBooking s form today8 todayISO).1
  | cancel (s : Store) (booking_id? : Option ℤ) :
      Step s (processCancelBooking s booking_id?).1

/-- Stores the application can reach from the freshly seeded database by
serving requests sequentially (no row is ever deleted). -/
inductive Reachable : Store → Prop
  | init : Reachable initStore
  | step {s t : Store} : Reachable s → Step s t → Reachable t

/-- Invariant of reachable stores: invoice ids strictly increase along the
table, every invoice is numbered `INV{8 digits}-{seq3 of its own id}`, and
every invoice references an existing booking. -/
def StoreWf (s : Store) : Prop :=
  (s.invoices.map Invoice.id).Pairwise (· < ·)
  ∧ (∀ inv ∈ s.invoices, ∃ d : String, d.length = 8 ∧ allDigits d.data = true
      ∧ inv.invoice_number = ("INV") ++ d ++ ("-") ++ seq3 inv.id)
  ∧ (∀ inv ∈ s.invoices, ∃ b ∈ s.bookings, b.id = inv.booking_id)

theorem lt_freshId {ids : List ℕ} {x : ℕ} (hx : x ∈ ids) : x < freshId ids := by
  have hle : x ≤ ids.foldr max 0 := by
    induction ids with
    | nil => cases hx
    | cons a t ih =>
        rcases List.mem_cons.mp hx with rfl | h
        · simp only [List.foldr_cons]
          exact Nat.le_max_left _ _
        · simp only [List.foldr_cons]
          exact le_trans (ih h) (Nat.le_max_right _ _)
  simpa [freshId] using Nat.lt_succ_of_le hle

theorem nextInvoiceNumber_eq (invoices : List Invoice) (today8 : String) :
    nextInvoiceNumber invoices today8
      = ("INV") ++ today8 ++ ("-") ++ seq3 (freshId (invoices.map Invoice.id)) := by
  cases invoices <;> rfl

theorem stepWf {s t : Store} (hs : StoreWf s) (st : Step s t) : StoreWf t := by
  obtain ⟨hpw, hnum, href⟩ := hs
  cases st with
  | submit form today8 todayISO hlen hdig =>
      rw [processNewBooking_fst]
      by_cases hpos : 0 < (bookingTotals s form).1
      · rw [if_pos hpos]
        refine ⟨?_, ?_, ?_⟩
        · rw [List.map_append, List.pairwise_append]
          refine ⟨hpw, by simp, ?_⟩
          intro a ha b hb
          simp only [List.map_cons, List.map_nil, List.mem_singleton] at hb
          subst hb
          show a < (mkNewInvoice s form today8 todayISO).id
          exact lt_freshId ha
        · intro inv hinv
          rcases List.mem_append.mp hinv with hold | hnew
          · exact hnum inv hold
          · simp only [List.mem_singleton] at hnew
            subst hnew
            refine ⟨today8, hlen, hdig, ?_⟩
            show nextInvoiceNumber s.invoices today8 = _
            rw [nextInvoiceNumber_eq]
            rfl
        · intro inv hinv
          rcases List.mem_append.mp hinv with hold | hnew
          · obtain ⟨b, hb, hbid⟩ := href inv hold
            exact ⟨b, List.mem_append.mpr (Or.inl hb), hbid⟩
          · simp only [List.mem_singleton] at hnew
            subst hnew
            exact ⟨newBooking s form todayISO,
              List.mem_append.mpr (Or.inr (by simp)), rfl⟩
      · rw [if_neg hpos]
        simp only [List.append_nil]
        refine ⟨hpw, hnum, ?_⟩
        intro inv hinv
        obtain ⟨b, hb, hbid⟩ := href inv hinv
        exact ⟨b, List.mem_append.mpr (Or.inl hb), hbid⟩
  | cancel bid? =>
      cases bid? with
      | none => exact ⟨hpw, hnum, href⟩
      | some bid =>
          simp only [processCancelBooking]
          refine ⟨?_, ?_, ?_⟩
          · rw [List.map_map]
            have : s.invoices.map
                (Invoice.id ∘ fun i =>
                  if (i.booking_id : ℤ) = bid then { i with status := ("canceled") } else i)
                = s.invoices.map Invoice.id := by
              refine List.map_congr_left (fun i _ => ?_)
              by_cases h : (i.booking_id : ℤ) = bid <;> simp [h]
            rw [this]
            exact hpw
          · intro inv hinv
            simp only [List.mem_map] at hinv
            obtain ⟨i, hi, rfl⟩ := hinv
            obtain ⟨d, hd1, hd2, hd3⟩ := hnum i hi
            refine ⟨d, hd1, hd2, ?_⟩
            by_cases h : (i.booking_id : ℤ) = bid <;> simp [h, hd3]
          · intro inv hinv
            simp only [List.mem_map] at hinv
            obtain ⟨i, hi, rfl⟩ := hinv
            obtain ⟨b, hb, hbid⟩ := href i hi
            refine ⟨if (b.id : ℤ) = bid then { b with status := ("canceled") } else b,
              List.mem_map.mpr ⟨b, hb, rfl⟩, ?_⟩
            by_cases h : (b.id : ℤ) = bid <;>
              by_cases h' : (i.booking_id : ℤ) = bid <;> simp [h, h', hbid]

theorem reachable_wf {s : Store} (h : Reachable s) : StoreWf s := by
  induction h with
  | init =>
      refine ⟨?_, ?_, ?_⟩ <;> simp [initStore, StoreWf]
  | step _ st ih => exact stepWf ih st

theorem invoiceNumber_inj {d₁ d₂ : String} (h₁ : d₁.length = 8) (h₂ : d₂.length = 8)
    {n₁ n₂ : ℕ}
    (h : ("INV") ++ d₁ ++ ("-") ++ seq3 n₁ = ("INV") ++ d₂ ++ ("-") ++ seq3 n₂) :
    n₁ = n₂ := by
  have hd := congrArg String.data h
  simp only [String.data_append] at hd
  have e₁ : ("INV").data ++ d₁.data ++ ("-").data ++ (seq3 n₁).data
      = (("INV").data ++ d₁.data ++ ("-").data) ++ pad3 n₁ := rfl
  have e₂ : ("INV").data ++ d₂.data ++ ("-").data ++ (seq3 n₂).data
      = (("INV").data ++ d₂.data ++ ("-").data) ++ pad3 n₂ := rfl
  rw [e₁, e₂] at hd
  have l3 : (("INV").data).length = 3 := rfl
  have l1 : (("-").data).length = 1 := rfl
  have hd₁' : d₁.data.length = 8 := h₁
  have hd₂' : d₂.data.length = 8 := h₂
  have hlen₁ : (("INV").data ++ d₁.data ++ ("-").data).length = 12 := by
    simp only [List.length_append, l3, l1, hd₁']
  have hlen₂ : (("INV").data ++ d₂.data ++ ("-").data).length = 12 := by
    simp only [List.length_append, l3, l1, hd₂']
  have hdrop := congrArg (List.drop 12) hd
  rw [List.drop_left' hlen₁, List.drop_left' hlen₂] at hdrop
  exact pad3_injective hdrop

theorem matchesInvPattern_form {d : String} (hlen : d.length = 8)
    (hdig : allDigits d.data = true) (n : ℕ) :
    matchesInvPattern (("INV") ++ d ++ ("-") ++ seq3 n) = true := by
  have hlen' : d.data.length = 8 := hlen
  have hd : (("INV") ++ d ++ ("-") ++ seq3 n).data
      = 'I' :: 'N' :: 'V' :: (d.data ++ ('-' :: pad3 n)) := by
    simp only [String.data_append, List.append_assoc]
    rfl
  unfold matchesInvPattern
  rw [hd]
  have ht : (d.data ++ ('-' :: pad3 n)).take 8 = d.data := List.take_left' hlen'
  have hdr : (d.data ++ ('-' :: pad3 n)).drop 8 = '-' :: pad3 n := List.drop_left' hlen'
  have hall : allDigits (pad3 n) = true :=
    List.all_eq_true.mpr (fun c hc => pad3_all_digit n c hc)
  simp [ht, hdr, hlen', hdig, hall, pad3_length_ge n]

/-- **C3.** In every store the workflow can reach (sequential execution, no
deletions) the invoice numbers are pairwise distinct — `Nodup` of the column
— and every one of them matches `INV{8-digit date}-{zero-padded sequence of
at least three digits}`. -/
theorem invoice_numbers_unique_and_patterned (s : Store) (h : Reachable s) :
    (s.invoices.map (fun i => i.invoice_number)).Nodup
    ∧ ∀ inv ∈ s.invoices, matchesInvPattern inv.invoice_number = true := by
  obtain ⟨hpw, hnum, -⟩ := reachable_wf h
  have hids : s.invoices.Pairwise (fun a b => a.id < b.id) := List.pairwise_map.mp hpw
  constructor
  · rw [List.Nodup, List.pairwise_map]
    refine hids.imp_of_mem ?_
    intro a b ha hb hlt heq
    obtain ⟨d₁, hd₁, hg₁, hn₁⟩ := hnum a ha
    obtain ⟨d₂, hd₂, hg₂, hn₂⟩ := hnum b hb
    rw [hn₁, hn₂] at heq
    exact absurd (invoiceNumber_inj hd₁ hd₂ heq) (Nat.ne_of_lt hlt)
  · intro inv hinv
    obtain ⟨d, hd, hg, hn⟩ := hnum inv hinv
    rw [hn]
    exact matchesInvPattern_form hd hg inv.id

/-- The store after two consecutive Full-Service submissions on consecutive
days, starting from the seeded database. -/
def twoSubmissionsStore : Store :=
  (processNewBooking
    (processNewBooking initStore qty2FullServiceForm ("20261012") ("2026-10-12")).1
    qty2FullServiceForm ("20261013") ("2026-10-13")).1

/-- **C3 witness**: the uniqueness/pattern theorem applied to the concrete
two-submission run. -/
theorem invoice_numbers_unique_and_patterned_witness :
    (twoSubmissionsStore.invoices.map (fun i => i.invoice_number)).Nodup
    ∧ ∀ inv ∈ twoSubmissionsStore.invoices, matchesInvPattern inv.invoice_number = true :=
  invoice_numbers_unique_and_patterned twoSubmissionsStore
    (Reachable.step
      (Reachable.step Reachable.init
        (Step.submit initStore qty2FullServiceForm ("20261012") ("2026-10-12")
          (by decide) (by decide)))
      (Step.submit _ qty2FullServiceForm ("20261013") ("2026-10-13")
        (by decide) (by decide)))

end ServiceInvoice
